import Mathlib

/-!
Shallow embedding of the Go (IPvGO) subnet engine excerpt:
the netscript-facing implementation layer (validateMove, validateTurn,
makePlayerMove, getValidMoves, resetBoardState, determineCheatSuccess,
cheatSuccessChance and the four cheat operations) together with the
netscript API entry points.  Helper modules that are not part of the
provided sources (boardState, boardAnalysis, goAI, scoring) are modelled
from the specification where a claim depends on them; each such
definition carries a doc comment starting with "Modelled from the spec".

JavaScript numbers are embedded as `Rat` (for probabilities and
multipliers) and `Int` (for coordinates arriving from scripts); game
counters are `Nat`.  The mutable singleton `Go.currentGame` is made an
explicit `GameState` value threaded through every operation; the
thrown-error channel of the netscript API is an `Except`/`Option GoError`
result.
-/

/-- Stone/point colors, mirroring the `GoColor` enum (`white`, `black`, `empty`). -/
inductive GoColor where
  | white
  | black
  | empty
deriving DecidableEq, Repr

/-- Opponent identities, mirroring the `GoOpponent` enum. -/
inductive GoOpponent where
  | none
  | netburners
  | slumSnakes
  | theBlackHand
  | tetrads
  | daedalus
  | illuminati
  | w0r1d_d43m0n
deriving DecidableEq, Repr

/-- Move validity outcomes, mirroring the `GoValidity` enum. -/
inductive GoValidity where
  | valid
  | outOfBounds
  | pointNotEmpty
  | noSuicide
  | boardRepeated
  | notYourTurn
  | gameOver
deriving DecidableEq, Repr

/-- One board cell: `none` is an offline/disabled node, `some c` an online
point of color `c` (the TS board is `(PointState | null)[][]`; chain ids and
cached liberty lists are recomputed data and not part of this color model). -/
abbrev Cell := Option GoColor

/-- The board, column-major as in the source (`board[x][y]`). -/
abbrev Board := List (List Cell)

/-- Game state, mirroring the `BoardState` fields the claims touch:
board, previous player (`none` = game over), consecutive-pass counter,
history of prior board serializations, opponent identity, cheat-attempt
counter. -/
structure GameState where
  board : Board
  previousPlayer : Option GoColor
  passCount : Nat
  previousBoards : List String
  ai : GoOpponent
  cheatCount : Nat
deriving DecidableEq, Repr

/-- Structured rendering of the human-readable errors the implementation
reports through the throwing `error` callback; each constructor carries the
data interpolated into the corresponding message string. -/
inductive GoError where
  | invalidColumn (x : Int) (boardSize : Nat)
  | invalidRow (y : Int) (boardSize : Nat)
  | turnError (methodName : String) (validity : GoValidity)
  | offlineNode (x y : Int) (methodName : String)
  | suicideError (x y : Int) (methodName : String)
  | repeatError (x y : Int) (methodName : String)
  | occupiedNode (x y : Int) (methodName : String)
  | emptyNode (x y : Int) (methodName : String)
  | nodeNotOffline (x y : Int) (methodName : String)
  | invalidMove (x y : Int) (validity : GoValidity)
  | invalidBoardSize (boardSize : Int)
  | invalidOpponent (opponent : GoOpponent)
  | cheatApiAccessDenied
deriving DecidableEq, Repr

/-- The color of the opposing player. -/
def oppositeColor : GoColor → GoColor
  | .white => .black
  | .black => .white
  | .empty => .empty

/-- Read the cell at `(x, y)`; out-of-range indices read as offline. -/
def cellAt (b : Board) (x y : Nat) : Cell :=
  (((b.get? x).bind fun col => col.get? y)).getD Option.none

/-- Write the cell at `(x, y)` (no effect out of range). -/
def setCell (b : Board) (x y : Nat) (v : Cell) : Board :=
  b.set x (((b.get? x).getD []).set y v)

/-- Orthogonal neighbors of `(x, y)` inside an `n × n` board. -/
def neighborsOf (n : Nat) (p : Nat × Nat) : List (Nat × Nat) :=
  (if p.1 + 1 < n then [(p.1 + 1, p.2)] else []) ++
  (if 0 < p.1 then [(p.1 - 1, p.2)] else []) ++
  (if p.2 + 1 < n then [(p.1, p.2 + 1)] else []) ++
  (if 0 < p.2 then [(p.1, p.2 - 1)] else [])

/-- Fuel-driven flood fill collecting the 4-connected component of color `c`
reachable from the frontier.  `visited` accumulates the chain found so far. -/
def sameColorFlood (b : Board) (c : GoColor) :
    Nat → List (Nat × Nat) → List (Nat × Nat) → List (Nat × Nat)
  | 0, _, visited => visited
  | _ + 1, [], visited => visited
  | fuel + 1, p :: frontier, visited =>
    if p ∈ visited then sameColorFlood b c fuel frontier visited
    else if cellAt b p.1 p.2 = some c then
      sameColorFlood b c fuel (neighborsOf b.length p ++ frontier) (p :: visited)
    else sameColorFlood b c fuel frontier visited

/-- Modelled from the spec (§4.2, the chain analyzer is not among the
provided sources): the maximal 4-connected set of same-colored stones
containing `p`. -/
def chainOf (b : Board) (p : Nat × Nat) : List (Nat × Nat) :=
  match cellAt b p.1 p.2 with
  | Option.none => []
  | some c => sameColorFlood b c (5 * b.length * b.length + 5) [p] []

/-- Modelled from the spec (§4.2): the liberties of the chain containing `p`,
the union over its stones of adjacent empty points. -/
def libertyPoints (b : Board) (p : Nat × Nat) : List (Nat × Nat) :=
  (((chainOf b p).flatMap (neighborsOf b.length)).filter
    fun q => cellAt b q.1 q.2 = some .empty).dedup

/-- Modelled from the spec (§4.2): capture resolution for one side — every
chain of color `c` with zero liberties is removed (its stones set to empty). -/
def removeDeadChains (b : Board) (c : GoColor) : Board :=
  let pts := (List.range b.length).flatMap fun x => (List.range b.length).map fun y => (x, y)
  let dead := pts.filter fun p => cellAt b p.1 p.2 = some c ∧ (libertyPoints b p).isEmpty
  dead.foldl (fun acc p => setCell acc p.1 p.2 (some .empty)) b

/-- Compact board serialization: one character per cell in a fixed
column-major order, four distinct symbols for black, white, empty, offline
(spec §6). -/
def serializeCell : Cell → Char
  | Option.none => '#'
  | some .empty => '.'
  | some .black => 'X'
  | some .white => 'O'

/-- Serialize a whole board to the compact string form used for the
repetition history. -/
def serializeBoard (b : Board) : String :=
  String.mk (b.flatMap fun col => col.map serializeCell)

/-- Modelled from the spec (§4.3, `boardAnalysis.evaluateIfMoveIsValid` is
not among the provided sources): checks in order — coordinates in bounds,
target empty and online, no suicide after simulating the placement and the
opposing captures, and no repetition of a recorded prior position. -/
def evaluateIfMoveIsValid (s : GameState) (x y : Int) (player : GoColor) : GoValidity :=
  let n := s.board.length
  if x < 0 ∨ (n : Int) ≤ x ∨ y < 0 ∨ (n : Int) ≤ y then .outOfBounds
  else
    let xn := x.toNat
    let yn := y.toNat
    match cellAt s.board xn yn with
    | Option.none => .pointNotEmpty
    | some c =>
      if c ≠ .empty then .pointNotEmpty
      else
        let placed := setCell s.board xn yn (some player)
        let resolved := removeDeadChains placed (oppositeColor player)
        if (libertyPoints resolved (xn, yn)).isEmpty then .noSuicide
        else if s.previousBoards.contains (serializeBoard resolved) then .boardRepeated
        else .valid

/-- Modelled from the spec (§4.4, `boardState.makeMove` is not among the
provided sources): `none` when the move is illegal (no side effects);
otherwise the stone is placed, captures resolved, the pre-move snapshot
appended to history, the pass counter reset and the previous player set. -/
def makeMove (s : GameState) (x y : Int) (player : GoColor) : Option GameState :=
  if evaluateIfMoveIsValid s x y player ≠ .valid then Option.none
  else
    let xn := x.toNat
    let yn := y.toNat
    let placed := setCell s.board xn yn (some player)
    let resolved := removeDeadChains placed (oppositeColor player)
    some { s with
      board := resolved
      previousBoards := serializeBoard s.board :: s.previousBoards
      passCount := 0
      previousPlayer := some player }

/-- Modelled from the spec (§4.4 and §4.7, `boardState.passTurn` is not
among the provided sources): increment the pass counter and set the previous
player; when the counter reaches 2 and the end-game effect is allowed, the
game becomes terminal (previous player `none`).  The cheat path calls this
with `allowEndGame = false`. -/
def passTurn (s : GameState) (player : GoColor) (allowEndGame : Bool) : GameState :=
  let s1 := { s with passCount := s.passCount + 1, previousPlayer := some player }
  if 2 ≤ s1.passCount ∧ allowEndGame then { s1 with previousPlayer := Option.none } else s1

/-- Modelled from the spec (`scoring.endGoGame` is not among the provided
sources): the game transitions to terminal, previous player becomes `none`
(win/loss statistics are outside this model). -/
def endGoGame (s : GameState) : GameState :=
  { s with previousPlayer := Option.none }

/-- Embedding of `Math.min` on rationals (kept as a plain conditional so
concrete values evaluate by kernel reduction). -/
def ratMin (a b : Rat) : Rat := if a ≤ b then a else b

/-- Embedding of `Math.max` on rationals. -/
def ratMax (a b : Rat) : Rat := if a ≤ b then b else a

/-- Success chance for the next cheat attempt, from `cheatSuccessChance`:
`max(min(0.6 * (0.7 - 0.02 * cheatCount) ^ cheatCount * crimeSuccess + sourceFileBonus, 1), 0)`
where the source-file bonus is `0.25` exactly at source-file level 3. -/
def cheatSuccessChance (sf14 : Nat) (crimeSuccess : Rat) (cheatCount : Nat) : Rat :=
  let sourceFileBonus : Rat := if sf14 = 3 then 1/4 else 0
  let cheatCountScalar : Rat := ((7 : Rat)/10 - (1/50) * cheatCount) ^ cheatCount
  ratMax (ratMin ((3/5) * cheatCountScalar * crimeSuccess + sourceFileBonus) 1) 0

/-- Settings record for `validateMove`, mirroring the `check` object (the TS
defaults spread-merged with the per-call overrides; the source field named
`repeat` is a Lean keyword and is embedded as `repeatCheck`). -/
structure CheckSettings where
  emptyNode : Bool := true
  requireNonEmptyNode : Bool := false
  repeatCheck : Bool := true
  onlineNode : Bool := true
  requireOfflineNode : Bool := false
  suicide : Bool := true
deriving DecidableEq, Repr

/-- Embedding of `validateTurn`: raises `notYourTurn` when the previous
player is black, `gameOver` when the previous player is null.  The `error`
callback throws in the netscript API, embedded as `Except`. -/
def validateTurn (s : GameState) (methodName : String) : Except GoError Unit := do
  if s.previousPlayer = some GoColor.black then
    throw (GoError.turnError methodName .notYourTurn)
  if s.previousPlayer = Option.none then
    throw (GoError.turnError methodName .gameOver)

/-- Embedding of `validateMove`: per-setting checks in source order —
column bound, row bound, turn, offline node, suicide, repetition,
occupied node, required non-empty node, required offline node. -/
def validateMove (s : GameState) (x y : Int) (methodName : String)
    (check : CheckSettings) : Except GoError Unit := do
  let boardSize := s.board.length
  if x < 0 ∨ (boardSize : Int) ≤ x then
    throw (GoError.invalidColumn x boardSize)
  if y < 0 ∨ (boardSize : Int) ≤ y then
    throw (GoError.invalidRow y boardSize)
  validateTurn s methodName
  let validity := evaluateIfMoveIsValid s x y .black
  let point := cellAt s.board x.toNat y.toNat
  if point = Option.none ∧ check.onlineNode then
    throw (GoError.offlineNode x y methodName)
  if validity = .noSuicide ∧ check.suicide then
    throw (GoError.suicideError x y methodName)
  if validity = .boardRepeated ∧ check.repeatCheck then
    throw (GoError.repeatError x y methodName)
  if point ≠ some GoColor.empty ∧ check.emptyNode then
    throw (GoError.occupiedNode x y methodName)
  if point = some GoColor.empty ∧ check.requireNonEmptyNode then
    throw (GoError.emptyNode x y methodName)
  if point ≠ Option.none ∧ check.requireOfflineNode then
    throw (GoError.nodeNotOffline x y methodName)

/-- Result of a player-facing move attempt: the (possibly updated) game
state, the reported error if any, whether the change notification fired,
and whether the opponent's (AI) move was requested. -/
structure PlayerMoveResult where
  state : GameState
  error : Option GoError
  emitted : Bool
  aiMoveRequested : Bool
deriving DecidableEq, Repr

/-- Embedding of `makePlayerMove`: evaluate validity, attempt the move, and
report `Invalid move: x y. validity.` through the throwing error callback
when the validity is not `valid` or the move was not made (aborting before
the notification and the AI move); otherwise emit the change notification
and request the opponent's move. -/
def makePlayerMove (s : GameState) (x y : Int) : PlayerMoveResult :=
  let validity := evaluateIfMoveIsValid s x y .black
  let moveResult := makeMove s x y .black
  let s1 := moveResult.getD s
  if validity ≠ .valid ∨ moveResult = Option.none then
    { state := s1, error := some (GoError.invalidMove x y validity),
      emitted := false, aiMoveRequested := false }
  else
    { state := s1, error := Option.none, emitted := true, aiMoveRequested := true }

/-- Embedding of `getValidMoves`: map the board matrix into booleans, true
exactly where `evaluateIfMoveIsValid` returns `valid` for the black player. -/
def getValidMoves (s : GameState) : List (List Bool) :=
  s.board.enum.map fun cx =>
    (cx.2.enum.map fun cy => evaluateIfMoveIsValid s cx.1 cy.1 .black == .valid)

/-- Modelled from the spec (§3/§4.1, `boardState.getNewBoardState` is not
among the provided sources): a fresh game of the requested size against the
requested opponent — empty square board, black to move (previous player
white), empty history and counters. -/
def getNewBoardState (boardSize : Int) (opponent : GoOpponent) : GameState :=
  { board := List.replicate boardSize.toNat (List.replicate boardSize.toNat (some GoColor.empty))
    previousPlayer := some GoColor.white
    passCount := 0
    previousBoards := []
    ai := opponent
    cheatCount := 0 }

/-- Result of `resetBoardState`: the game state afterwards, the reported
error if any, and whether the change notification fired. -/
structure ResetResult where
  state : GameState
  error : Option GoError
  emitted : Bool
deriving DecidableEq, Repr

/-- Embedding of `resetBoardState`: reject sizes outside {5, 7, 9, 13}
unless the opponent is `w0r1d_d43m0n`, reject `w0r1d_d43m0n` without the
required augmentation, otherwise replace the current game with a fresh
board and emit the change notification (the winstreak bookkeeping touches
only the per-opponent statistics, outside this model). -/
def resetBoardState (hasRedPill : Bool) (s : GameState) (opponent : GoOpponent)
    (boardSize : Int) : ResetResult :=
  if ¬ (boardSize = 5 ∨ boardSize = 7 ∨ boardSize = 9 ∨ boardSize = 13) ∧
      opponent ≠ GoOpponent.w0r1d_d43m0n then
    { state := s, error := some (GoError.invalidBoardSize boardSize), emitted := false }
  else if opponent = GoOpponent.w0r1d_d43m0n ∧ ¬ hasRedPill then
    { state := s, error := some (GoError.invalidOpponent opponent), emitted := false }
  else
    { state := getNewBoardState boardSize opponent, error := Option.none, emitted := true }

/-- Embedding of `checkCheatApiAccess`: requires Source-File 14 above
level 1, or level 1 inside BitNode 14. -/
def checkCheatApiAccess (sf14 bitNodeN : Nat) : Except GoError Unit :=
  if ¬ (1 < sf14) ∧ ¬ (sf14 = 1 ∧ bitNodeN = 14) then
    throw GoError.cheatApiAccessDenied
  else pure ()

/-- The four cheat operations, as data; `applyCheat` is the corresponding
success callback passed to `determineCheatSuccess`. -/
inductive CheatKind where
  | removeRouter (x y : Int)
  | playTwoMoves (x1 y1 x2 y2 : Int)
  | repairOfflineNode (x y : Int)
  | destroyNode (x y : Int)
deriving DecidableEq, Repr

/-- Success callbacks of the four cheats: clear the point, play two black
stones and resolve captures, repair the offline node, or destroy the node;
each sets the previous player to black.  (`updateChains` recomputes chain
ids and liberties and changes no colors; `updateCaptures` additionally
removes dead chains, opposing chains first per spec §4.2.) -/
def applyCheat (k : CheatKind) (s : GameState) : GameState :=
  match k with
  | .removeRouter x y =>
    { s with board := setCell s.board x.toNat y.toNat (some GoColor.empty)
             previousPlayer := some GoColor.black }
  | .playTwoMoves x1 y1 x2 y2 =>
    let b1 := setCell s.board x1.toNat y1.toNat (some GoColor.black)
    let b2 := setCell b1 x2.toNat y2.toNat (some GoColor.black)
    let b3 := removeDeadChains b2 .white
    let b4 := removeDeadChains b3 .black
    { s with board := b4, previousPlayer := some GoColor.black }
  | .repairOfflineNode x y =>
    { s with board := setCell s.board x.toNat y.toNat (some GoColor.empty)
             previousPlayer := some GoColor.black }
  | .destroyNode x y =>
    { s with board := setCell s.board x.toNat y.toNat none
             previousPlayer := some GoColor.black }

/-- Outcome of one cheat attempt: the cheat succeeded and was applied, the
player was ejected from the subnet, or the turn was skipped. -/
inductive CheatOutcome where
  | success
  | ejected
  | skipped
deriving DecidableEq, Repr

/-- Result of `determineCheatSuccess`: the game state afterwards, the
branch taken, whether the change notification fired, and whether the
opponent's move was requested (`makeAIMove`; on ejection the pending
`Go.nextTurn` is returned instead). -/
structure CheatResult where
  state : GameState
  outcome : CheatOutcome
  emitted : Bool
  aiMoveRequested : Bool
deriving DecidableEq, Repr

/-- Embedding of `determineCheatSuccess`: reset the pass counter, roll for
success against `cheatSuccessChance` of the current cheat count (the rng
rolls are the `WHRNG` draws or their test overrides, passed explicitly);
on success apply the cheat and emit; otherwise, when there were prior cheat
attempts and the eject roll is under 0.1, end the game and return the
pending turn — returning before the `cheatCount++` statement; otherwise
skip the turn with a pass that may not end the game.  The increment of
`cheatCount` runs only on the paths that reach the end of the function. -/
def determineCheatSuccess (s : GameState) (k : CheatKind) (sf14 : Nat)
    (crimeSuccess : Rat) (successRoll ejectRoll : Rat) : CheatResult :=
  let s0 := { s with passCount := 0 }
  if successRoll ≤ cheatSuccessChance sf14 crimeSuccess s0.cheatCount then
    let s1 := applyCheat k s0
    { state := { s1 with cheatCount := s1.cheatCount + 1 },
      outcome := .success, emitted := true, aiMoveRequested := true }
  else if s0.cheatCount ≠ 0 ∧ ejectRoll < 1/10 then
    { state := endGoGame s0, outcome := .ejected, emitted := false, aiMoveRequested := false }
  else
    let s1 := passTurn s0 .black false
    { state := { s1 with cheatCount := s1.cheatCount + 1 },
      outcome := .skipped, emitted := false, aiMoveRequested := true }

/-- Embedding of `cheatRemoveRouter` (its callback is
`applyCheat (.removeRouter x y)`). -/
def cheatRemoveRouter (s : GameState) (x y : Int) (sf14 : Nat)
    (crimeSuccess successRoll ejectRoll : Rat) : CheatResult :=
  determineCheatSuccess s (.removeRouter x y) sf14 crimeSuccess successRoll ejectRoll

/-- Embedding of `cheatPlayTwoMoves`. -/
def cheatPlayTwoMoves (s : GameState) (x1 y1 x2 y2 : Int) (sf14 : Nat)
    (crimeSuccess successRoll ejectRoll : Rat) : CheatResult :=
  determineCheatSuccess s (.playTwoMoves x1 y1 x2 y2) sf14 crimeSuccess successRoll ejectRoll

/-- Embedding of `cheatRepairOfflineNode`. -/
def cheatRepairOfflineNode (s : GameState) (x y : Int) (sf14 : Nat)
    (crimeSuccess successRoll ejectRoll : Rat) : CheatResult :=
  determineCheatSuccess s (.repairOfflineNode x y) sf14 crimeSuccess successRoll ejectRoll

/-- Embedding of `cheatDestroyNode`. -/
def cheatDestroyNode (s : GameState) (x y : Int) (sf14 : Nat)
    (crimeSuccess successRoll ejectRoll : Rat) : CheatResult :=
  determineCheatSuccess s (.destroyNode x y) sf14 crimeSuccess successRoll ejectRoll

/-- Result of a netscript entry point: the game state afterwards and either
the thrown error or the produced outcome. -/
structure NsResult (α : Type) where
  state : GameState
  result : Except GoError α
deriving Repr

/-- Method name passed by the netscript `makeMove` entry point. -/
def makeMoveMethodName : String := "makeMove"

/-- Method name passed by the netscript `cheat.removeRouter` entry point. -/
def removeRouterMethodName : String := "removeRouter"

/-- Method name passed by the netscript `cheat.playTwoMoves` entry point. -/
def playTwoMovesMethodName : String := "playTwoMoves"

/-- Method name passed by the netscript `cheat.repairOfflineNode` entry point. -/
def repairOfflineNodeMethodName : String := "repairOfflineNode"

/-- Method name passed by the netscript `cheat.destroyNode` entry point. -/
def destroyNodeMethodName : String := "destroyNode"

/-- Embedding of the netscript `go.makeMove` entry point: `validateMove`
with default settings, then `makePlayerMove`.  A thrown validation error
leaves the game untouched. -/
def nsMakeMove (s : GameState) (x y : Int) : NsResult PlayerMoveResult :=
  match validateMove s x y makeMoveMethodName {} with
  | .error e => { state := s, result := .error e }
  | .ok _ =>
    let r := makePlayerMove s x y
    { state := r.state, result := .ok r }

/-- Embedding of the netscript `go.cheat.removeRouter` entry point:
access check, `validateMove` with the removeRouter settings, then the
cheat resolution. -/
def nsRemoveRouter (sf14 bitNodeN : Nat) (crimeSuccess successRoll ejectRoll : Rat)
    (s : GameState) (x y : Int) : NsResult CheatResult :=
  match (do
      checkCheatApiAccess sf14 bitNodeN
      validateMove s x y removeRouterMethodName
        { emptyNode := false, requireNonEmptyNode := true,
          repeatCheck := false, suicide := false } : Except GoError Unit) with
  | .error e => { state := s, result := .error e }
  | .ok _ =>
    let r := cheatRemoveRouter s x y sf14 crimeSuccess successRoll ejectRoll
    { state := r.state, result := .ok r }

/-- Embedding of the netscript `go.cheat.playTwoMoves` entry point:
access check, `validateMove` on each coordinate pair with the
playTwoMoves settings, then the cheat resolution. -/
def nsPlayTwoMoves (sf14 bitNodeN : Nat) (crimeSuccess successRoll ejectRoll : Rat)
    (s : GameState) (x1 y1 x2 y2 : Int) : NsResult CheatResult :=
  match (do
      checkCheatApiAccess sf14 bitNodeN
      validateMove s x1 y1 playTwoMovesMethodName { repeatCheck := false, suicide := false }
      validateMove s x2 y2 playTwoMovesMethodName { repeatCheck := false, suicide := false }
      : Except GoError Unit) with
  | .error e => { state := s, result := .error e }
  | .ok _ =>
    let r := cheatPlayTwoMoves s x1 y1 x2 y2 sf14 crimeSuccess successRoll ejectRoll
    { state := r.state, result := .ok r }

/-- Embedding of the netscript `go.cheat.repairOfflineNode` entry point. -/
def nsRepairOfflineNode (sf14 bitNodeN : Nat) (crimeSuccess successRoll ejectRoll : Rat)
    (s : GameState) (x y : Int) : NsResult CheatResult :=
  match (do
      checkCheatApiAccess sf14 bitNodeN
      validateMove s x y repairOfflineNodeMethodName
        { emptyNode := false, repeatCheck := false, onlineNode := false,
          requireOfflineNode := true, suicide := false } : Except GoError Unit) with
  | .error e => { state := s, result := .error e }
  | .ok _ =>
    let r := cheatRepairOfflineNode s x y sf14 crimeSuccess successRoll ejectRoll
    { state := r.state, result := .ok r }

/-- Embedding of the netscript `go.cheat.destroyNode` entry point. -/
def nsDestroyNode (sf14 bitNodeN : Nat) (crimeSuccess successRoll ejectRoll : Rat)
    (s : GameState) (x y : Int) : NsResult CheatResult :=
  match (do
      checkCheatApiAccess sf14 bitNodeN
      validateMove s x y destroyNodeMethodName
        { repeatCheck := false, onlineNode := true, suicide := false }
      : Except GoError Unit) with
  | .error e => { state := s, result := .error e }
  | .ok _ =>
    let r := cheatDestroyNode s x y sf14 crimeSuccess successRoll ejectRoll
    { state := r.state, result := .ok r }

/-- Modelled from the spec (§5/§9, the goAI resolution path is not among
the provided sources): the process-wide session pairs the current game
with a generation counter identifying which game instance asynchronous
results target. -/
structure GoSession where
  currentGame : GameState
  generation : Nat
deriving DecidableEq, Repr

/-- Modelled from the spec (§5/§9): a pending opponent-move resolution,
tagged with the generation of the game it was computed for. -/
structure PendingOpponentMove where
  targetGeneration : Nat
  x : Int
  y : Int
deriving DecidableEq, Repr

/-- Modelled from the spec (§2/§4.6): the eventual resolution of the
opponent's move feeds back through the same validate/apply path, as a
white move on the current board. -/
def applyOpponentMove (s : GameState) (x y : Int) : GameState :=
  (makeMove s x y .white).getD s

/-- Embedding of the UI `resetState` path combined with the spec §9
generation counter: the session's current game is replaced wholesale by a
fresh board state, and the generation advances so stale asynchronous
results can be recognized. -/
def resetSession (g : GoSession) (boardSize : Int) (opponent : GoOpponent) : GoSession :=
  { currentGame := getNewBoardState boardSize opponent, generation := g.generation + 1 }

/-- Modelled from the spec (§5: stale opponent-move resolutions are
discarded "by checking whether the game identity/generation it targeted is
still current"): apply the pending move only when its target generation
matches the session's. -/
def resolvePendingOpponentMove (g : GoSession) (p : PendingOpponentMove) : GoSession :=
  if p.targetGeneration = g.generation then
    { g with currentGame := applyOpponentMove g.currentGame p.x p.y }
  else g

/-- Example game used for concrete witnesses: a 1×1 board, black to move,
one prior cheat attempt. -/
def exState : GameState :=
  { board := [[some GoColor.empty]]
    previousPlayer := some GoColor.white
    passCount := 0
    previousBoards := []
    ai := GoOpponent.netburners
    cheatCount := 1 }

/-- Example game used for concrete witnesses: a fresh 2×2 board against no
opponent. -/
def exGame2 : GameState := getNewBoardState 2 GoOpponent.none

/-- The state `exGame2` reaches after black plays at the origin. -/
def exGame2After : GameState :=
  { board := [[some GoColor.black, some GoColor.empty],
              [some GoColor.empty, some GoColor.empty]]
    previousPlayer := some GoColor.black
    passCount := 0
    previousBoards := [serializeBoard exGame2.board]
    ai := GoOpponent.none
    cheatCount := 0 }

/-- Example session for the stale-resolution witness. -/
def exSession : GoSession := { currentGame := exState, generation := 0 }

/-- Example pending opponent move targeting `exSession`'s generation. -/
def exPending : PendingOpponentMove := { targetGeneration := 0, x := 0, y := 0 }

theorem ratMin_eq_min (a b : Rat) : ratMin a b = min a b := by
  unfold ratMin
  rw [min_def]

theorem ratMax_eq_max (a b : Rat) : ratMax a b = max a b := by
  unfold ratMax
  rw [max_def]

@[simp]
theorem applyCheat_cheatCount (k : CheatKind) (s : GameState) :
    (applyCheat k s).cheatCount = s.cheatCount := by
  cases k <;> rfl

@[simp]
theorem applyCheat_passCount (k : CheatKind) (s : GameState) :
    (applyCheat k s).passCount = s.passCount := by
  cases k <;> rfl

@[simp]
theorem applyCheat_previousPlayer (k : CheatKind) (s : GameState) :
    (applyCheat k s).previousPlayer = some GoColor.black := by
  cases k <;> rfl

theorem determineCheatSuccess_success {sf14 : Nat} {m sr : Rat} {s : GameState}
    (k : CheatKind) (er : Rat) (h : sr ≤ cheatSuccessChance sf14 m s.cheatCount) :
    determineCheatSuccess s k sf14 m sr er =
      { state := { applyCheat k { s with passCount := 0 } with cheatCount := s.cheatCount + 1 }
        outcome := .success
        emitted := true
        aiMoveRequested := true } := by
  simp only [determineCheatSuccess]
  rw [if_pos h, applyCheat_cheatCount]

theorem determineCheatSuccess_eject {sf14 : Nat} {m sr : Rat} {s : GameState}
    (k : CheatKind) {er : Rat} (h : ¬ sr ≤ cheatSuccessChance sf14 m s.cheatCount)
    (hc : s.cheatCount ≠ 0) (he : er < 1/10) :
    determineCheatSuccess s k sf14 m sr er =
      { state :=
          { s with
              passCount := 0
              previousPlayer := Option.none }
        outcome := .ejected
        emitted := false
        aiMoveRequested := false } := by
  simp only [determineCheatSuccess]
  rw [if_neg h, if_pos (⟨hc, he⟩ : s.cheatCount ≠ 0 ∧ er < 1/10)]
  rfl

theorem determineCheatSuccess_skip {sf14 : Nat} {m sr : Rat} {s : GameState}
    (k : CheatKind) {er : Rat} (h : ¬ sr ≤ cheatSuccessChance sf14 m s.cheatCount)
    (hce : s.cheatCount = 0 ∨ ¬ er < 1/10) :
    determineCheatSuccess s k sf14 m sr er =
      { state :=
          { s with
              passCount := 1
              previousPlayer := some GoColor.black
              cheatCount := s.cheatCount + 1 }
        outcome := .skipped
        emitted := false
        aiMoveRequested := true } := by
  have hcond : ¬ (s.cheatCount ≠ 0 ∧ er < 1/10) := by
    rcases hce with h0 | h1
    · simp [h0]
    · exact fun hq => h1 hq.2
  simp only [determineCheatSuccess]
  rw [if_neg h, if_neg hcond]
  rfl

/-- Claim C1 (counterexample): the attempt counter is NOT always incremented.
When the success roll fails, a prior cheat exists, and the eject roll is under
0.1, `determineCheatSuccess` returns before reaching `state.cheatCount++`, so
the counter stays at 1 instead of becoming 2. -/
theorem cheatCount_increment_fails_on_ejection :
    ¬ (determineCheatSuccess exState (.destroyNode 0 0) 1 0 1 0).state.cheatCount =
        exState.cheatCount + 1 := by
  have h1 : ¬ ((1:Rat) ≤ cheatSuccessChance 1 0 exState.cheatCount) := by
    norm_num [cheatSuccessChance, ratMin, ratMax, exState]
  rw [determineCheatSuccess_eject (.destroyNode 0 0) h1 (by decide) (by norm_num)]
  simp [exState]

/-- Claim C1 (amended): every call to `determineCheatSuccess` (hence every
cheat operation) increments the game's `cheatCount` by one, EXCEPT that on
the ejection branch (failed roll, prior cheat attempts, eject roll under
0.1) the function returns early and the counter is unchanged. -/
theorem determineCheatSuccess_cheatCount_unless_ejected (s : GameState) (k : CheatKind)
    (sf14 : Nat) (m sr er : Rat) :
    (determineCheatSuccess s k sf14 m sr er).state.cheatCount =
      (if (determineCheatSuccess s k sf14 m sr er).outcome = .ejected
       then s.cheatCount else s.cheatCount + 1) := by
  by_cases hsucc : sr ≤ cheatSuccessChance sf14 m s.cheatCount
  · rw [determineCheatSuccess_success k er hsucc]
    simp
  · by_cases hc : s.cheatCount = 0
    · rw [determineCheatSuccess_skip k hsucc (Or.inl hc)]
      simp
    · by_cases he : er < 1/10
      · rw [determineCheatSuccess_eject k hsucc hc he]
        simp
      · rw [determineCheatSuccess_skip k hsucc (Or.inr he)]
        simp

/-- Claim C2 (counterexample): with no source-file bonus and crime multiplier
1, `cheatSuccessChance` is NOT non-increasing: at 35 attempts the decay base
`0.7 - 0.02 * 35` is exactly zero, so the chance is 0, while at 36 attempts
the base is negative and the even power makes the scalar (and the chance)
positive again. -/
theorem cheatSuccessChance_not_monotone_at_35 :
    ¬ (cheatSuccessChance 1 1 36 ≤ cheatSuccessChance 1 1 35) := by
  norm_num [cheatSuccessChance, ratMin, ratMax]

/-- Claim C2 (amended): for every fixed skill modifier with a nonnegative
crime multiplier, `cheatSuccessChance` always lies in [0, 1], and it is
monotonically non-increasing in the attempt count as long as the decay base
`0.7 - 0.02 * n` stays nonnegative, i.e. for steps `n → n + 1` with
`n + 1 ≤ 35`.  (Beyond that the sign of the base alternates with the parity
of the exponent and monotonicity fails, first at the step 35 → 36.) -/
theorem cheatSuccessChance_clamped_and_monotone_until_35 (sf14 : Nat) (m : Rat)
    (hm : 0 ≤ m) :
    (∀ n : Nat, 0 ≤ cheatSuccessChance sf14 m n ∧ cheatSuccessChance sf14 m n ≤ 1) ∧
    (∀ n : Nat, n + 1 ≤ 35 →
      cheatSuccessChance sf14 m (n + 1) ≤ cheatSuccessChance sf14 m n) := by
  constructor
  · intro n
    unfold cheatSuccessChance
    rw [ratMax_eq_max, ratMin_eq_min]
    constructor
    · exact le_max_right _ _
    · exact max_le (min_le_right _ _) zero_le_one
  · intro n hn
    unfold cheatSuccessChance
    rw [ratMax_eq_max, ratMin_eq_min, ratMax_eq_max, ratMin_eq_min]
    have hcast : ((n : Rat) + 1) ≤ 35 := by
      have h35 : ((n + 1 : Nat) : Rat) ≤ ((35 : Nat) : Rat) := Nat.cast_le.mpr hn
      push_cast at h35
      linarith
    have hb1 : (0 : Rat) ≤ 7/10 - 1/50 * ((n + 1 : Nat) : Rat) := by
      push_cast
      linarith
    have hb2 : (7 : Rat)/10 - 1/50 * ((n + 1 : Nat) : Rat) ≤ 7/10 - 1/50 * (n : Rat) := by
      push_cast
      have hnn : (0:Rat) ≤ (n : Rat) := Nat.cast_nonneg n
      linarith
    have hb0 : (0 : Rat) ≤ 7/10 - 1/50 * (n : Rat) := le_trans hb1 hb2
    have hble1 : (7 : Rat)/10 - 1/50 * (n : Rat) ≤ 1 := by
      have hnn : (0:Rat) ≤ (n : Rat) := Nat.cast_nonneg n
      linarith
    have hpow : ((7:Rat)/10 - 1/50 * ((n + 1 : Nat) : Rat)) ^ (n + 1) ≤
        ((7:Rat)/10 - 1/50 * (n : Rat)) ^ n := by
      calc ((7:Rat)/10 - 1/50 * ((n + 1 : Nat) : Rat)) ^ (n + 1)
          ≤ ((7:Rat)/10 - 1/50 * (n : Rat)) ^ (n + 1) := pow_le_pow_left₀ hb1 hb2 (n + 1)
        _ ≤ ((7:Rat)/10 - 1/50 * (n : Rat)) ^ n :=
            pow_le_pow_of_le_one hb0 hble1 (Nat.le_succ n)
    have hmul : (3:Rat)/5 * (((7:Rat)/10 - 1/50 * ((n + 1 : Nat) : Rat)) ^ (n + 1)) * m ≤
        (3:Rat)/5 * (((7:Rat)/10 - 1/50 * (n : Rat)) ^ n) * m := by
      apply mul_le_mul_of_nonneg_right _ hm
      apply mul_le_mul_of_nonneg_left hpow (by norm_num)
    exact max_le_max (min_le_min (add_le_add_right hmul _) le_rfl) le_rfl

/-- Witness for claim C2's amended theorem at crime multiplier 1, no bonus. -/
theorem cheatSuccessChance_clamped_and_monotone_until_35_witness :
    (0:Rat) ≤ 1 ∧ (2 + 1 ≤ 35) ∧
    0 ≤ cheatSuccessChance 1 1 3 ∧ cheatSuccessChance 1 1 3 ≤ 1 ∧
    cheatSuccessChance 1 1 (2 + 1) ≤ cheatSuccessChance 1 1 2 := by
  have h := cheatSuccessChance_clamped_and_monotone_until_35 1 1 (by norm_num)
  exact ⟨by norm_num, by norm_num, (h.1 3).1, (h.1 3).2, h.2 2 (by norm_num)⟩

/-- Claim C3: on a failed success roll, with prior cheat attempts the game
terminates (previous player cleared, ejection outcome) exactly when the eject
roll is under the fixed 0.1 threshold; with no prior attempts the game never
terminates on failure — the turn is skipped by a pass that leaves the game
live (previous player black, pass counter at 1, so no two-pass ending fires). -/
theorem determineCheatSuccess_failure_branches (s : GameState) (k : CheatKind)
    (sf14 : Nat) (m sr er : Rat)
    (hfail : ¬ sr ≤ cheatSuccessChance sf14 m s.cheatCount) :
    (s.cheatCount ≠ 0 →
      (((determineCheatSuccess s k sf14 m sr er).state.previousPlayer = Option.none ↔
          er < 1/10) ∧
       ((determineCheatSuccess s k sf14 m sr er).outcome = .ejected ↔ er < 1/10))) ∧
    (s.cheatCount = 0 →
      (determineCheatSuccess s k sf14 m sr er).outcome = .skipped ∧
      (determineCheatSuccess s k sf14 m sr er).state.previousPlayer = some GoColor.black ∧
      (determineCheatSuccess s k sf14 m sr er).state.passCount = 1) := by
  constructor
  · intro hc
    by_cases he : er < 1/10
    · rw [determineCheatSuccess_eject k hfail hc he]
      exact ⟨iff_of_true rfl he, iff_of_true rfl he⟩
    · rw [determineCheatSuccess_skip k hfail (Or.inr he)]
      exact ⟨iff_of_false (by simp) he, iff_of_false (by simp) he⟩
  · intro hc
    rw [determineCheatSuccess_skip k hfail (Or.inl hc)]
    simp

/-- Witness for claim C3: on `exState` (one prior cheat), failing roll 1 and
eject roll 0 eject the player. -/
theorem determineCheatSuccess_failure_branches_witness :
    ¬ ((1:Rat) ≤ cheatSuccessChance 1 0 exState.cheatCount) ∧
    exState.cheatCount ≠ 0 ∧
    (determineCheatSuccess exState (.removeRouter 0 0) 1 0 1 0).state.previousPlayer =
      Option.none := by
  have hfail : ¬ ((1:Rat) ≤ cheatSuccessChance 1 0 exState.cheatCount) := by
    norm_num [cheatSuccessChance, ratMin, ratMax, exState]
  refine ⟨hfail, by decide, ?_⟩
  exact ((determineCheatSuccess_failure_branches exState (.removeRouter 0 0) 1 0 1 0
    hfail).1 (by decide)).1.mpr (by norm_num)

/-- Claim C9: every cheat attempt zeroes the consecutive-pass counter at the
start of resolution, so whatever the prior pass count, after the attempt the
counter is at most 1 (1 only on the skipped-turn branch) and the game is
terminated only by the ejection branch, never by the two-pass rule. -/
theorem cheat_resets_pass_count (s : GameState) (k : CheatKind) (sf14 : Nat)
    (m sr er : Rat) :
    (determineCheatSuccess s k sf14 m sr er).state.passCount =
      (if (determineCheatSuccess s k sf14 m sr er).outcome = .skipped then 1 else 0) ∧
    ((determineCheatSuccess s k sf14 m sr er).state.previousPlayer = Option.none ↔
      (determineCheatSuccess s k sf14 m sr er).outcome = .ejected) := by
  by_cases hsucc : sr ≤ cheatSuccessChance sf14 m s.cheatCount
  · rw [determineCheatSuccess_success k er hsucc]
    simp
  · by_cases hc : s.cheatCount = 0
    · rw [determineCheatSuccess_skip k hsucc (Or.inl hc)]
      simp
    · by_cases he : er < 1/10
      · rw [determineCheatSuccess_eject k hsucc hc he]
        simp
      · rw [determineCheatSuccess_skip k hsucc (Or.inr he)]
        simp

/-- Claim C4: `makePlayerMove` reports a descriptive error carrying the
coordinates and the validity — with the game state unchanged, no
notification and no AI move — whenever the validity is not `valid` or the
move was not made; otherwise the move result becomes the new state, the
change notification fires and the opponent's move is requested. -/
theorem makePlayerMove_reports_invalid_moves (s : GameState) (x y : Int) :
    (evaluateIfMoveIsValid s x y .black ≠ .valid ∨ makeMove s x y .black = Option.none →
      makePlayerMove s x y =
        { state := s
          error := some (GoError.invalidMove x y (evaluateIfMoveIsValid s x y .black))
          emitted := false
          aiMoveRequested := false }) ∧
    (∀ s', evaluateIfMoveIsValid s x y .black = .valid → makeMove s x y .black = some s' →
      makePlayerMove s x y =
        { state := s', error := Option.none, emitted := true, aiMoveRequested := true }) := by
  constructor
  · intro h
    have hnone : makeMove s x y .black = Option.none := by
      rcases h with h | h
      · simp [makeMove, h]
      · exact h
    unfold makePlayerMove
    rw [if_pos (Or.inr hnone), hnone]
    rfl
  · intro s' hval hsome
    unfold makePlayerMove
    rw [if_neg (by simp [hval, hsome]), hsome]
    rfl

/-- Witness for claim C4: on a fresh 2×2 board the move at the origin is
valid, and `makePlayerMove` applies it, emits, and requests the AI move. -/
theorem makePlayerMove_reports_invalid_moves_witness :
    evaluateIfMoveIsValid exGame2 0 0 .black = .valid ∧
    makeMove exGame2 0 0 .black = some exGame2After ∧
    makePlayerMove exGame2 0 0 =
      { state := exGame2After, error := Option.none, emitted := true,
        aiMoveRequested := true } := by
  refine ⟨by decide, by decide, ?_⟩
  exact (makePlayerMove_reports_invalid_moves exGame2 0 0).2 exGame2After
    (by decide) (by decide)

/-- Claim C5: `validateTurn` raises the `notYourTurn` error exactly when the
previous player is black, the `gameOver` error exactly when the previous
player is null, and raises nothing when the previous player is white — only
the black side is turn-gated. -/
theorem validateTurn_gates_black_only (s : GameState) (m : String) :
    (validateTurn s m = .error (GoError.turnError m .notYourTurn) ↔
      s.previousPlayer = some GoColor.black) ∧
    (validateTurn s m = .error (GoError.turnError m .gameOver) ↔
      s.previousPlayer = Option.none) ∧
    (s.previousPlayer = some GoColor.white → validateTurn s m = .ok ()) := by
  rcases hp : s.previousPlayer with _ | c
  · simp [validateTurn, hp, throw, throwThe, MonadExceptOf.throw, pure, Except.pure,
      Bind.bind, Except.bind]
  · cases c <;>
      simp [validateTurn, hp, throw, throwThe, MonadExceptOf.throw, pure, Except.pure,
        Bind.bind, Except.bind]

/-- Witness for claim C5: in `exState` the previous player is white and
`validateTurn` accepts. -/
theorem validateTurn_gates_black_only_witness :
    exState.previousPlayer = some GoColor.white ∧
    validateTurn exState makeMoveMethodName = .ok () := by
  exact ⟨rfl, (validateTurn_gates_black_only exState makeMoveMethodName).2.2 rfl⟩

/-- Claim C7: `resetBoardState` rejects sizes outside {5, 7, 9, 13} for
ordinary opponents and rejects the `w0r1d_d43m0n` opponent without the
required augmentation, leaving the old game in place with no notification;
otherwise it installs a fresh board of the requested size and opponent and
emits the change notification. -/
theorem resetBoardState_validates_configuration (hasRedPill : Bool) (s : GameState)
    (opp : GoOpponent) (size : Int) :
    (¬ (size = 5 ∨ size = 7 ∨ size = 9 ∨ size = 13) ∧ opp ≠ GoOpponent.w0r1d_d43m0n →
      resetBoardState hasRedPill s opp size =
        { state := s, error := some (GoError.invalidBoardSize size), emitted := false }) ∧
    (opp = GoOpponent.w0r1d_d43m0n ∧ ¬ hasRedPill →
      resetBoardState hasRedPill s opp size =
        { state := s, error := some (GoError.invalidOpponent opp), emitted := false }) ∧
    ((size = 5 ∨ size = 7 ∨ size = 9 ∨ size = 13 ∨ opp = GoOpponent.w0r1d_d43m0n) →
      (opp = GoOpponent.w0r1d_d43m0n → hasRedPill) →
      resetBoardState hasRedPill s opp size =
        { state := getNewBoardState size opp, error := Option.none, emitted := true }) := by
  refine ⟨fun h => ?_, fun h => ?_, fun h1 h2 => ?_⟩
  · unfold resetBoardState
    rw [if_pos h]
  · unfold resetBoardState
    rw [if_neg (by simp [h.1]), if_pos h]
  · unfold resetBoardState
    have hc1 : ¬ (¬ (size = 5 ∨ size = 7 ∨ size = 9 ∨ size = 13) ∧
        opp ≠ GoOpponent.w0r1d_d43m0n) := by
      rcases h1 with h | h | h | h | h <;> simp [h]
    have hc2 : ¬ (opp = GoOpponent.w0r1d_d43m0n ∧ ¬ hasRedPill) := by
      intro hq
      exact hq.2 (h2 hq.1)
    rw [if_neg hc1, if_neg hc2]

/-- Witness for claim C7: a size-5 game against Netburners resets cleanly. -/
theorem resetBoardState_validates_configuration_witness :
    resetBoardState true exState GoOpponent.netburners 5 =
      { state := getNewBoardState 5 GoOpponent.netburners, error := Option.none,
        emitted := true } := by
  exact (resetBoardState_validates_configuration true exState GoOpponent.netburners 5).2.2
    (Or.inl rfl) (fun h => by cases h)

/-- Claim C8: a pending opponent-move resolution created for the game
generation current before a reset is discarded when it resolves after the
reset — the post-reset session (fresh board included) is unchanged. -/
theorem stale_opponent_move_discarded_after_reset (g : GoSession)
    (p : PendingOpponentMove) (size : Int) (opp : GoOpponent)
    (hp : p.targetGeneration = g.generation) :
    resolvePendingOpponentMove (resetSession g size opp) p = resetSession g size opp := by
  unfold resolvePendingOpponentMove resetSession
  rw [if_neg]
  simp [hp]

/-- Witness for claim C8 on the example session. -/
theorem stale_opponent_move_discarded_after_reset_witness :
    exPending.targetGeneration = exSession.generation ∧
    resolvePendingOpponentMove (resetSession exSession 5 GoOpponent.netburners) exPending =
      resetSession exSession 5 GoOpponent.netburners := by
  exact ⟨rfl,
    stale_opponent_move_discarded_after_reset exSession exPending 5 GoOpponent.netburners rfl⟩

/-- Claim C10: `getValidMoves` produces a grid with the same column count and
column lengths as the current board whose entry at (x, y) is true exactly
when `evaluateIfMoveIsValid` answers `valid` for black there; as a pure
function of the state it performs no mutation. -/
theorem getValidMoves_matches_validator (s : GameState) :
    (getValidMoves s).length = s.board.length ∧
    (∀ x : Nat, (((getValidMoves s)[x]?).map List.length) = ((s.board[x]?).map List.length)) ∧
    (∀ x y : Nat, ∀ col : List Cell, s.board[x]? = some col → y < col.length →
      ((((getValidMoves s)[x]?).bind fun column => column[y]?) = some true ↔
        evaluateIfMoveIsValid s x y .black = .valid)) := by
  refine ⟨?_, ?_, ?_⟩
  · simp [getValidMoves]
  · intro x
    simp [getValidMoves, List.getElem?_map, List.getElem?_enum]
    cases s.board[x]? <;> simp
  · intro x y col hcol hy
    have hcy : col[y]? = some (col.get ⟨y, hy⟩) := List.getElem?_eq_getElem hy
    simp [getValidMoves, List.getElem?_map, List.getElem?_enum, hcol, hcy]

/-- Witness for claim C10 at the origin of the fresh 2×2 board. -/
theorem getValidMoves_matches_validator_witness :
    exGame2.board[0]? = some [some GoColor.empty, some GoColor.empty] ∧ (0:Nat) < 2 ∧
    ((((getValidMoves exGame2)[0]?).bind fun column => column[0]?) = some true ↔
      evaluateIfMoveIsValid exGame2 0 0 .black = .valid) := by
  exact ⟨by decide, by decide,
    (getValidMoves_matches_validator exGame2).2.2 0 0
      [some GoColor.empty, some GoColor.empty] (by decide) (by decide)⟩

/-- Claim C6: whenever x or y is outside [0, boardSize), `validateMove`
throws the invalid-coordinate error (column first) before any turn,
occupancy, suicide or repetition check — the same error is produced for
every game state and settings record — and every stone-placing or
stone-removing netscript entry point (makeMove and all four cheats, given
cheat-API access) reports that error with the game state unchanged. -/
theorem validateMove_out_of_bounds_first (s : GameState) (x y : Int)
    (h : x < 0 ∨ (s.board.length : Int) ≤ x ∨ y < 0 ∨ (s.board.length : Int) ≤ y)
    (m : String) (ck : CheckSettings) (sf14 bitNodeN : Nat) (hsf : 1 < sf14)
    (mult sr er : Rat) (x2 y2 : Int) :
    validateMove s x y m ck =
      .error (if x < 0 ∨ (s.board.length : Int) ≤ x then GoError.invalidColumn x s.board.length
              else GoError.invalidRow y s.board.length) ∧
    nsMakeMove s x y =
      { state := s
        result := .error (if x < 0 ∨ (s.board.length : Int) ≤ x
                          then GoError.invalidColumn x s.board.length
                          else GoError.invalidRow y s.board.length) } ∧
    nsRemoveRouter sf14 bitNodeN mult sr er s x y =
      { state := s
        result := .error (if x < 0 ∨ (s.board.length : Int) ≤ x
                          then GoError.invalidColumn x s.board.length
                          else GoError.invalidRow y s.board.length) } ∧
    nsPlayTwoMoves sf14 bitNodeN mult sr er s x y x2 y2 =
      { state := s
        result := .error (if x < 0 ∨ (s.board.length : Int) ≤ x
                          then GoError.invalidColumn x s.board.length
                          else GoError.invalidRow y s.board.length) } ∧
    nsRepairOfflineNode sf14 bitNodeN mult sr er s x y =
      { state := s
        result := .error (if x < 0 ∨ (s.board.length : Int) ≤ x
                          then GoError.invalidColumn x s.board.length
                          else GoError.invalidRow y s.board.length) } ∧
    nsDestroyNode sf14 bitNodeN mult sr er s x y =
      { state := s
        result := .error (if x < 0 ∨ (s.board.length : Int) ≤ x
                          then GoError.invalidColumn x s.board.length
                          else GoError.invalidRow y s.board.length) } := by
  have haccess : checkCheatApiAccess sf14 bitNodeN = pure () := by
    unfold checkCheatApiAccess
    rw [if_neg]
    simp [hsf]
  have hvm : ∀ (m' : String) (ck' : CheckSettings), validateMove s x y m' ck' =
      .error (if x < 0 ∨ (s.board.length : Int) ≤ x then GoError.invalidColumn x s.board.length
              else GoError.invalidRow y s.board.length) := by
    intro m' ck'
    by_cases hx : x < 0 ∨ (s.board.length : Int) ≤ x
    · rw [if_pos hx]
      simp [validateMove, hx, throw, throwThe, MonadExceptOf.throw, Bind.bind, Except.bind]
    · have hy : y < 0 ∨ (s.board.length : Int) ≤ y := by
        rcases h with h' | h' | h' | h'
        · exact absurd (Or.inl h') hx
        · exact absurd (Or.inr h') hx
        · exact Or.inl h'
        · exact Or.inr h'
      rw [if_neg hx]
      simp [validateMove, hx, hy, throw, throwThe, MonadExceptOf.throw, Bind.bind, Except.bind,
        pure, Except.pure]
  refine ⟨hvm m ck, ?_, ?_, ?_, ?_, ?_⟩
  · unfold nsMakeMove
    rw [hvm]
  · unfold nsRemoveRouter
    rw [show (do
        checkCheatApiAccess sf14 bitNodeN
        validateMove s x y removeRouterMethodName
          { emptyNode := false, requireNonEmptyNode := true,
            repeatCheck := false, suicide := false } : Except GoError Unit) =
      .error (if x < 0 ∨ (s.board.length : Int) ≤ x then GoError.invalidColumn x s.board.length
              else GoError.invalidRow y s.board.length) by
      rw [haccess]
      simp [Bind.bind, Except.bind, pure, Except.pure, hvm]]
  · unfold nsPlayTwoMoves
    rw [show (do
        checkCheatApiAccess sf14 bitNodeN
        validateMove s x y playTwoMovesMethodName { repeatCheck := false, suicide := false }
        validateMove s x2 y2 playTwoMovesMethodName { repeatCheck := false, suicide := false }
        : Except GoError Unit) =
      .error (if x < 0 ∨ (s.board.length : Int) ≤ x then GoError.invalidColumn x s.board.length
              else GoError.invalidRow y s.board.length) by
      rw [haccess]
      simp [Bind.bind, Except.bind, pure, Except.pure, hvm]]
  · unfold nsRepairOfflineNode
    rw [show (do
        checkCheatApiAccess sf14 bitNodeN
        validateMove s x y repairOfflineNodeMethodName
          { emptyNode := false, repeatCheck := false, onlineNode := false,
            requireOfflineNode := true, suicide := false } : Except GoError Unit) =
      .error (if x < 0 ∨ (s.board.length : Int) ≤ x then GoError.invalidColumn x s.board.length
              else GoError.invalidRow y s.board.length) by
      rw [haccess]
      simp [Bind.bind, Except.bind, pure, Except.pure, hvm]]
  · unfold nsDestroyNode
    rw [show (do
        checkCheatApiAccess sf14 bitNodeN
        validateMove s x y destroyNodeMethodName
          { repeatCheck := false, onlineNode := true, suicide := false }
        : Except GoError Unit) =
      .error (if x < 0 ∨ (s.board.length : Int) ≤ x then GoError.invalidColumn x s.board.length
              else GoError.invalidRow y s.board.length) by
      rw [haccess]
      simp [Bind.bind, Except.bind, pure, Except.pure, hvm]]

/-- Witness for claim C6: column 5 on the 1×1 example board is rejected with
the invalid-column error by `validateMove` and by the destroyNode entry
point, whose state is returned untouched. -/
theorem validateMove_out_of_bounds_first_witness :
    ((5:Int) < 0 ∨ (exState.board.length : Int) ≤ 5) ∧ 1 < 2 ∧
    validateMove exState 5 0 makeMoveMethodName {} =
      .error (GoError.invalidColumn 5 exState.board.length) ∧
    nsDestroyNode 2 1 0 0 0 exState 5 0 =
      { state := exState, result := .error (GoError.invalidColumn 5 exState.board.length) } := by
  have h := validateMove_out_of_bounds_first exState 5 0 (by decide) makeMoveMethodName {}
    2 1 (by decide) 0 0 0 0 0
  have h1 := h.1
  have h6 := h.2.2.2.2.2
  rw [if_pos (by decide)] at h1 h6
  exact ⟨by decide, by decide, h1, h6⟩
